import Mathlib

/-!
# Verification of the ASL gesture server's session/model lifecycle core

Shallow embedding of the relevant parts of `Android Python Server/main.py`
and `Android Python Server/level_model_manager.py`.

Conventions of the embedding:
* Machine floats become `ℚ` (the code only compares, takes max/argmax, and
  returns confidences; no float-specific behaviour is claimed).
* A hand-landmark feature vector (63 floats = 21 landmarks × 3 coordinates)
  becomes `FeatureVec := Fin 21 → Landmark`.
* The external ML libraries (TensorFlow, scikit-learn) are pluggable
  estimators at the code's boundary; a loaded model becomes a Lean function
  from features to its raw output, with `Option` capturing a raised
  exception inside the library call (`none` = the call raised).
* Python dictionaries keyed by gesture name become association lists
  (`List (String × β)`) with first-match lookup and in-place update,
  matching dict semantics for the operations the code performs.
* Caught exceptions are modelled explicitly: each embedded function returns
  exactly what the Python function returns on the corresponding path.
-/

/-- One MediaPipe hand landmark: the `x`, `y`, `z` floats of `main.py`'s
`extract_hand_landmarks`. -/
structure Landmark where
  x : ℚ
  y : ℚ
  z : ℚ
  deriving DecidableEq

/-- A 63-dimensional feature vector, viewed (as `rule_based_prediction` does
via `features.reshape(21, 3)`) as 21 landmarks. -/
def FeatureVec : Type := Fin 21 → Landmark

/-- `ORIGINAL_LABELS` of `main.py` (line 74): the default gesture vocabulary. -/
def ORIGINAL_LABELS : List String := ["Yes", "No", "I Love You", "Hello", "Thank You"]

/-- `LESSON_GESTURES` of `main.py` (lines 78-84): lesson id → gesture set. -/
def LESSON_GESTURES : List (String × List String) :=
  [("lesson_1", ["Hello", "Thank You", "Yes", "No"]),
   ("lesson_2", ["Happy", "Sad", "Angry", "Love"]),
   ("lesson_3", ["Eat", "Drink", "Sleep", "Go"]),
   ("lesson_4", ["Book", "Phone", "Car", "Home"]),
   ("lesson_5", ["What", "Where", "When", "Who"])]

/-- `PRACTICE_LEVEL_GESTURES` of `level_model_manager.py` (lines 43-49).
Textually identical content to `LESSON_GESTURES`, kept as its own definition
because it is a distinct constant in the source. -/
def PRACTICE_LEVEL_GESTURES : List (String × List String) :=
  [("lesson_1", ["Hello", "Thank You", "Yes", "No"]),
   ("lesson_2", ["Happy", "Sad", "Angry", "Love"]),
   ("lesson_3", ["Eat", "Drink", "Sleep", "Go"]),
   ("lesson_4", ["Book", "Phone", "Car", "Home"]),
   ("lesson_5", ["What", "Where", "When", "Who"])]

/-- First-match association-list lookup: the read `d[k]` / `d.get(k)` on a
Python dict. -/
def alookup {β : Type} : List (String × β) → String → Option β
  | [], _ => none
  | (k, v) :: rest, key => if k = key then some v else alookup rest key

/-- In-place value replacement at a key: the write `d[k] = v` on a Python
dict when the key is already present, appending otherwise. -/
def aupdate {β : Type} : List (String × β) → String → β → List (String × β)
  | [], key, v => [(key, v)]
  | (k, w) :: rest, key, v =>
      if k = key then (k, v) :: rest else (k, w) :: aupdate rest key v

/-- `int(np.argmax(l))`: index of the first maximal element (0 on empty
input; the code never reaches that case because `np.max` raises first). -/
def argmaxAux : List ℚ → Nat → Nat → ℚ → Nat
  | [], _, best, _ => best
  | q :: qs, i, best, bestVal =>
      if bestVal < q then argmaxAux qs (i + 1) i q else argmaxAux qs (i + 1) best bestVal

/-- `int(np.argmax(l))` for a list of prediction scores. -/
def listArgmax : List ℚ → Nat
  | [] => 0
  | q :: qs => argmaxAux qs 1 0 q

/-- `float(np.max(l))` for a nonempty list of prediction scores (0 on empty
input; callers in the embedding branch on emptiness first, mirroring the
`ValueError` `np.max` raises on an empty array). -/
def listMax : List ℚ → ℚ
  | [] => 0
  | q :: qs => qs.foldl max q

/-- `ASLModel.rule_based_prediction` of `main.py` (lines 143-181): the
deterministic finger-extension heuristic. Landmark indices and comparisons
are transcribed from the source; Python float literals become rationals. -/
def rule_based_prediction (f : FeatureVec) : String × ℚ :=
  let thumbUp : Bool := decide ((f 4).y < (f 3).y)
  let indexUp : Bool := decide ((f 8).y < (f 6).y)
  let middleUp : Bool := decide ((f 12).y < (f 10).y)
  let ringUp : Bool := decide ((f 16).y < (f 14).y)
  let pinkyUp : Bool := decide ((f 20).y < (f 18).y)
  let fingersUpCount : Nat := [thumbUp, indexUp, middleUp, ringUp, pinkyUp].count true
  if fingersUpCount = 5 then ("Hello", 4/5)
  else if fingersUpCount = 2 ∧ indexUp = true ∧ pinkyUp = true then ("I Love You", 4/5)
  else if fingersUpCount = 1 ∧ thumbUp = true then ("Yes", 7/10)
  else if fingersUpCount = 2 ∧ indexUp = true ∧ middleUp = true then ("No", 7/10)
  else if fingersUpCount = 0 then ("Thank You", 3/5)
  else ("Unknown", 3/10)

/-- A loaded TensorFlow classifier at the `model.predict` boundary: features
in, list of per-class scores out; `none` models a raised exception inside
the library call. -/
def NeuralModel : Type := FeatureVec → Option (List ℚ)

/-- The in-memory state of `ASLModel` (`main.py` lines 89-141): the loaded
TensorFlow model (or `None`) and the `model_loaded` flag. There is no field
for an ensemble model: `load_model` only ever reads `models/asl_model_tf`. -/
structure ASLModel where
  model : Option NeuralModel
  model_loaded : Bool

/-- `ASLModel.predict` of `main.py` (lines 107-127). The TF path resolves
argmax against `ORIGINAL_LABELS` (out-of-range gives "Unknown"); any
exception in the TF path — including `np.max` on an empty output — falls
back to `rule_based_prediction`, as does the no-model case. -/
def ASLModel.predict (m : ASLModel) (f : FeatureVec) : String × ℚ :=
  if m.model_loaded then
    match m.model with
    | some nm =>
        match nm f with
        | some preds =>
            if preds.length = 0 then rule_based_prediction f
            else
              let confidence := listMax preds
              let predictedClass := listArgmax preds
              let gesture :=
                if predictedClass < ORIGINAL_LABELS.length then
                  ORIGINAL_LABELS.getD predictedClass "Unknown"
                else "Unknown"
              (gesture, confidence)
        | none => rule_based_prediction f
    | none => rule_based_prediction f
  else rule_based_prediction f

/-- A loaded Random Forest classifier at the `predict` / `predict_proba`
boundary: features in, (predicted class index, probability list) out;
`none` models a raised exception inside the library call. Class labels are
non-negative integers because the repository always fits on vocabulary
indices. -/
def RFModel : Type := FeatureVec → Option (Nat × List ℚ)

/-- The `training_metadata.json` record as `predict_with_level_model`
consumes it: only the optional `gestures` list is read (a record without a
`gestures` key behaves like a missing record there). -/
structure LevelMetadata where
  gestures : Option (List String)

/-- The in-memory state of `IsolatedLevelModelManager`
(`level_model_manager.py` lines 66-83): vocabulary, lesson id, practice
flag, the two optional models, and the optional metadata record. -/
structure LevelState where
  current_level_labels : List String
  current_level_id : Option String
  is_practice_mode : Bool
  current_level_model : Option NeuralModel
  current_level_rf_model : Option RFModel
  current_level_metadata : Option LevelMetadata

/-- One on-disk lesson artifact directory as `_load_level_model` probes it.
Each field is `none` when the corresponding file is absent; when present,
the inner `Option` is the load outcome (`none` = the load call raised). -/
structure LessonArtifact where
  metadata : Option (Option LevelMetadata)
  tf : Option (Option NeuralModel)
  rf : Option (Option RFModel)

/-- The lesson-artifact filesystem: lesson id ↦ artifact directory
(`none` = `level_models/<lesson_id>` does not exist). -/
def LessonFS : Type := String → Option LessonArtifact

/-- `IsolatedLevelModelManager._load_level_model` (`level_model_manager.py`
lines 121-186). Faithful points: a missing directory returns `False`
touching nothing; a metadata parse error raises into the outer handler
(returns `False`, state as mutated so far — nothing yet at that point);
each of the metadata / TF / RF fields is only written when its file exists
(a failed load writes `None`, a missing file leaves the prior value); the
result is `True` iff at least one model field is non-`None` afterwards. -/
def load_level_model (fs : LessonFS) (s : LevelState) (lesson_id : String) :
    LevelState × Bool :=
  match fs lesson_id with
  | none => (s, false)
  | some art =>
      match art.metadata with
      | some none => (s, false)
      | _ =>
          let s1 : LevelState :=
            match art.metadata with
            | some (some md) => { s with current_level_metadata := some md }
            | _ => s
          let s2 : LevelState :=
            match art.tf with
            | some tfres => { s1 with current_level_model := tfres }
            | none => s1
          let s3 : LevelState :=
            match art.rf with
            | some rfres => { s2 with current_level_rf_model := rfres }
            | none => s2
          if s3.current_level_model.isSome ∨ s3.current_level_rf_model.isSome then
            (s3, true)
          else (s3, false)

/-- `IsolatedLevelModelManager.enter_practice_mode` (`level_model_manager.py`
lines 85-119). Note the order in the source: `current_level_id` and
`current_level_labels` are assigned *before* the load is attempted, so they
are overwritten even when the call fails; `is_practice_mode` is set to true
only on success. -/
def enter_practice_mode (fs : LessonFS) (s : LevelState) (lesson_id : String) :
    LevelState × Bool :=
  let s1 : LevelState :=
    { s with current_level_id := some lesson_id,
             current_level_labels := (alookup PRACTICE_LEVEL_GESTURES lesson_id).getD [] }
  let res := load_level_model fs s1 lesson_id
  if res.2 then ({ res.1 with is_practice_mode := true }, true)
  else (res.1, false)

/-- `IsolatedLevelModelManager.exit_practice_mode` (`level_model_manager.py`
lines 188-212): unconditionally clears every field. -/
def exit_practice_mode (_s : LevelState) : LevelState :=
  { current_level_labels := []
    current_level_id := none
    is_practice_mode := false
    current_level_model := none
    current_level_rf_model := none
    current_level_metadata := none }

/-- The fully-cleared manager state: `__init__`'s state and the result of
every `exit_practice_mode` call. -/
def inactive_state : LevelState := exit_practice_mode
  { current_level_labels := []
    current_level_id := none
    is_practice_mode := false
    current_level_model := none
    current_level_rf_model := none
    current_level_metadata := none }

/-- The gesture-label list `predict_with_level_model` resolves class indices
against: the metadata's `gestures` list when a metadata record with that key
is held, else `current_level_labels`. -/
def resolveLabels (s : LevelState) : List String :=
  match s.current_level_metadata with
  | some md =>
      match md.gestures with
      | some g => g
      | none => s.current_level_labels
  | none => s.current_level_labels

/-- `IsolatedLevelModelManager.predict_with_level_model`
(`level_model_manager.py` lines 248-323). Control-flow notes transcribed
from the source: the RF path is an `elif`, reached only when no TF model is
held; when the produced class index is not below the label-list length the
`if` guard fails and control falls past the whole `if`/`elif` to the final
`return "No model", 0.0`; any exception inside the `try` (a raising model
call, or `np.max` on an empty output) yields `("Error", 0.0)`. -/
def predict_with_level_model (s : LevelState) (f : FeatureVec) : String × ℚ :=
  if s.is_practice_mode = false then ("No practice mode", 0)
  else
    match s.current_level_model with
    | some nm =>
        match nm f with
        | none => ("Error", 0)
        | some preds =>
            if preds.length = 0 then ("Error", 0)
            else
              let confidence := listMax preds
              let predictedClass := listArgmax preds
              let labels := resolveLabels s
              if predictedClass < labels.length then
                (labels.getD predictedClass "", confidence)
              else ("No model", 0)
    | none =>
        match s.current_level_rf_model with
        | some rm =>
            match rm f with
            | none => ("Error", 0)
            | some (cls, proba) =>
                if proba.length = 0 then ("Error", 0)
                else
                  let confidence := listMax proba
                  let labels := resolveLabels s
                  if cls < labels.length then
                    (labels.getD cls "", confidence)
                  else ("No model", 0)
        | none => ("No model", 0)

/-- The class index produced by the active lesson model on one feature
vector (`none` when no model is held or the model call fails before an
index is produced): TF argmax when a TF model is held, else the RF
predicted class, mirroring the `if`/`elif` preference in
`predict_with_level_model`. -/
def activeClassIdx (s : LevelState) (f : FeatureVec) : Option Nat :=
  match s.current_level_model with
  | some nm =>
      match nm f with
      | none => none
      | some preds => if preds.length = 0 then none else some (listArgmax preds)
  | none =>
      match s.current_level_rf_model with
      | some rm =>
          match rm f with
          | none => none
          | some (cls, proba) => if proba.length = 0 then none else some cls
      | none => none

/-- Python's `str.isspace()` on a single character: true exactly for the
code points Python 3 treats as whitespace — 0x09-0x0D, 0x1C-0x1F, space,
0x85 (NEL), 0xA0 (NBSP), 0x1680 (Ogham space mark), 0x2000-0x200A,
0x2028-0x2029 (line/paragraph separator), 0x202F, 0x205F and 0x3000. -/
def pyIsSpace (c : Char) : Bool :=
  ([9, 10, 11, 12, 13, 28, 29, 30, 31, 32, 133, 160, 5760,
    8192, 8193, 8194, 8195, 8196, 8197, 8198, 8199, 8200, 8201, 8202,
    8232, 8233, 8239, 8287, 12288] : List Nat).contains c.toNat

/-- Python's `str.strip()`: drop leading and trailing characters for which
`str.isspace()` holds. -/
def pyStrip (s : String) : String :=
  String.mk (((s.data.dropWhile pyIsSpace).reverse.dropWhile pyIsSpace).reverse)

/-- The metadata record `start_training_session` stores in
`admin_level_sessions` for an admin session (`main.py` lines 231-236);
`started_at` is the wall-clock read, threaded in as a parameter. -/
structure AdminMeta where
  lesson_id : String
  started_at : ℚ
  is_admin : Bool
  gestures : List String

/-- The in-memory state of `EnhancedTrainingCollector` (`main.py` lines
193-200). Sample buffers are association lists gesture-name ↦ bucket. -/
structure Collector where
  current_session : Option String
  training_features : List (String × List FeatureVec)
  training_labels : List (String × List Nat)
  admin_level_sessions : List (String × AdminMeta)
  current_lesson_gestures : List String
  current_lesson_id : Option String

/-- The vocabulary `start_training_session` resolves for a session
(`main.py` lines 212-221): the lesson's gesture set when
`is_admin_level and lesson_id` (an unknown lesson id yields `[]`), else
`ORIGINAL_LABELS`. -/
def sessionVocab (is_admin_level : Bool) (lesson_id : Option String) : List String :=
  match is_admin_level, lesson_id with
  | true, some lid => (alookup LESSON_GESTURES lid).getD []
  | _, _ => ORIGINAL_LABELS

/-- `EnhancedTrainingCollector.start_training_session` (`main.py` lines
202-241): installs the new session id, resets both buffer dictionaries,
resolves the vocabulary, pre-creates one empty bucket per gesture, and (for
admin sessions) records session metadata keyed by id. `now` is the
`time.time()` read. -/
def start_training_session (c : Collector) (session_id : String)
    (is_admin_level : Bool) (lesson_id : Option String) (now : ℚ) : Collector :=
  let gestures := sessionVocab is_admin_level lesson_id
  let lessonCtx : Option String :=
    match is_admin_level, lesson_id with
    | true, some lid => some lid
    | _, _ => none
  let adminSessions :=
    match is_admin_level, lesson_id with
    | true, some lid =>
        aupdate c.admin_level_sessions session_id
          { lesson_id := lid, started_at := now, is_admin := true, gestures := gestures }
    | _, _ => c.admin_level_sessions
  { current_session := some session_id
    training_features := gestures.map (fun g => (g, []))
    training_labels := gestures.map (fun g => (g, []))
    admin_level_sessions := adminSessions
    current_lesson_gestures := gestures
    current_lesson_id := lessonCtx }

/-- The outcome of decoding and running the feature extractor on one
submitted frame, the external boundary of `process_training_frame`:
`decodeError` is a raised exception in base64 decoding (or any other raise
inside the `try`), `noImage` is `cv2.imdecode` returning `None`,
`noDetection` is the extractor reporting no hand, `detected f` is a
successful 63-feature extraction. -/
inductive FrameResult where
  | decodeError
  | noImage
  | noDetection
  | detected (f : FeatureVec)

/-- The `valid_gestures` local of `process_training_frame` (`main.py` line
260): the session's gesture list, falling back to `ORIGINAL_LABELS` when
that list is empty (Python truthiness of the list). -/
def valid_gestures (c : Collector) : List String :=
  if c.current_lesson_gestures.length = 0 then ORIGINAL_LABELS
  else c.current_lesson_gestures

/-- `EnhancedTrainingCollector.process_training_frame` (`main.py` lines
243-308). Path-by-path from the source: no current session → `0`; the
gesture name is stripped, then validated against `valid_gestures` → `0` on
failure; decode errors and any other raise are caught and return
`len(self.training_features.get(stripped, []))` with no mutation — as do an
undecodable image and a no-detection frame via the final `return`; on a
detection, the feature is appended to the gesture's bucket (a missing
features bucket raises `KeyError`, caught, returning that same length, i.e.
`0`; a missing labels bucket raises only after the features append, so the
features mutation survives) and the new bucket length is returned. -/
def process_training_frame (c : Collector) (gesture_name : String)
    (fr : FrameResult) : Collector × Nat :=
  match c.current_session with
  | none => (c, 0)
  | some _ =>
      let g := pyStrip gesture_name
      if g ∉ valid_gestures c then (c, 0)
      else
        match fr with
        | .decodeError => (c, ((alookup c.training_features g).getD []).length)
        | .noImage => (c, ((alookup c.training_features g).getD []).length)
        | .noDetection => (c, ((alookup c.training_features g).getD []).length)
        | .detected f =>
            let gestureIdx := (valid_gestures c).indexOf g
            match alookup c.training_features g with
            | none => (c, 0)
            | some bucket =>
                let features2 := aupdate c.training_features g (bucket ++ [f])
                match alookup c.training_labels g with
                | none =>
                    ({ c with training_features := features2 }, bucket.length + 1)
                | some lbucket =>
                    ({ c with
                        training_features := features2,
                        training_labels :=
                          aupdate c.training_labels g (lbucket ++ [gestureIdx]) },
                      bucket.length + 1)

/-- Outcomes of the external ML/persistence stages inside `run_training`
(`main.py` lines 366-453): held-out accuracies reported by the Random
Forest and TensorFlow stages (`none` = that stage raised), and whether the
metadata/persistence writes succeeded. The split fallback (stratified →
unstratified) never surfaces in the return value and is folded into the
stage outcomes. -/
structure TrainEnv where
  rf_accuracy : Option ℚ
  tf_accuracy : Option ℚ
  persist_ok : Bool

/-- `EnhancedTrainingCollector.run_training` (`main.py` lines 310-475),
with the external ML stages abstracted by `env`. Code-derived logic kept
exactly: the gesture set is the lesson's (admin) or `ORIGINAL_LABELS`;
`X`/`y` are flattened by iterating that gesture set in order over the
buffers; an empty `X` returns `(False, 0.0)` before any model work; any
stage exception returns `(False, 0.0)` (the caught `except` at the end);
on full success the sample buffers are cleared and
`(True, max(rf_accuracy, tf_accuracy))` is returned. -/
def run_training (c : Collector) (is_admin_level : Bool) (lesson_id : Option String)
    (env : TrainEnv) : Collector × Bool × ℚ :=
  let current_gestures :=
    match is_admin_level, lesson_id with
    | true, some lid => (alookup LESSON_GESTURES lid).getD []
    | _, _ => ORIGINAL_LABELS
  let X := current_gestures.flatMap (fun g => (alookup c.training_features g).getD [])
  if X.length = 0 then (c, false, 0)
  else
    match env.rf_accuracy with
    | none => (c, false, 0)
    | some rfAcc =>
        match env.tf_accuracy with
        | none => (c, false, 0)
        | some tfAcc =>
            if env.persist_ok then
              ({ c with training_features := [], training_labels := [] },
                true, max rfAcc tfAcc)
            else (c, false, 0)

/-- The `/training/complete` endpoint `complete_training` (`main.py` lines
787-809), past its request-field validation: runs a regular training, and
on success replaces the in-memory default model with `reloaded` (the result
of `asl_model.load_model()` re-reading the freshly written artifact), while
on failure it sets `asl_model.model = None` and
`asl_model.model_loaded = False`. The prior in-memory model `_am` is never
restored on either branch. Returns the new collector, the new default-model
state, and the `(ok, accuracy)` pair. -/
def complete_training (tc : Collector) (_am : ASLModel) (env : TrainEnv)
    (reloaded : ASLModel) : Collector × ASLModel × Bool × ℚ :=
  let res := run_training tc false none env
  if res.2.1 then (res.1, reloaded, true, res.2.2)
  else (res.1, { model := none, model_loaded := false }, false, res.2.2)

/-- An ensemble classifier at the spec's `predict(vector) → (label,
confidence)` interface. -/
def EnsembleModel : Type := FeatureVec → String × ℚ

/-- Spec-side definition, for the refinement comparison only: the dispatch
order the spec claims for the Default Dispatcher — prefer the neural
Classifier if present, else the ensemble, else the rule-based heuristic.
The neural tier mirrors the source's TF-path resolution so that the only
difference under test is the ensemble tier, which the source's `ASLModel`
does not have. -/
def spec_default_predict (neural : Option NeuralModel) (ensemble : Option EnsembleModel)
    (f : FeatureVec) : String × ℚ :=
  match neural with
  | some nm =>
      match nm f with
      | some preds =>
          if preds.length = 0 then rule_based_prediction f
          else
            (if listArgmax preds < ORIGINAL_LABELS.length then
               ORIGINAL_LABELS.getD (listArgmax preds) "Unknown"
             else "Unknown", listMax preds)
      | none => rule_based_prediction f
  | none =>
      match ensemble with
      | some em => em f
      | none => rule_based_prediction f

/-! ## Concrete states, models and environments used in witnesses and
counterexamples -/

/-- The all-zero feature vector (the shape `test_predict.py` feeds the
model), used as the concrete frame in witnesses and counterexamples. -/
def zeroFeatures : FeatureVec := fun _ => ⟨0, 0, 0⟩

/-- A loaded TF classifier that always scores class 0 highest among four
classes. -/
def tfConst1 : NeuralModel := fun _ => some [1, 0, 0, 0]

/-- A practice state whose label list is empty while a TF model producing a
one-class score vector is loaded: its argmax 0 is out of range for the
empty vocabulary. -/
def oobWitnessState : LevelState :=
  { current_level_labels := []
    current_level_id := some "lesson_9"
    is_practice_mode := true
    current_level_model := some (fun _ => some [1])
    current_level_rf_model := none
    current_level_metadata := none }

/-- A lesson-artifact filesystem with no artifact at all. -/
def emptyFS : LessonFS := fun _ => none

/-- A manager state in which lesson_1 has been entered with a TF model
loaded (a reachable Active state). -/
def lessonOneActive : LevelState :=
  { current_level_labels := ["Hello", "Thank You", "Yes", "No"]
    current_level_id := some "lesson_1"
    is_practice_mode := true
    current_level_model := some tfConst1
    current_level_rf_model := none
    current_level_metadata := none }

/-- A loaded RF classifier that always predicts class 0 with certainty. -/
def rfConst : RFModel := fun _ => some (0, [1])

/-- The metadata record of lesson_1's artifact. -/
def mdLessonOne : LevelMetadata := { gestures := some ["Hello", "Thank You", "Yes", "No"] }

/-- A manager state in which lesson_1 has been entered, loading an RF model
and metadata (a reachable Active state: lesson_1's directory held
`asl_model.pkl` and `training_metadata.json` but no TF bundle). -/
def lessonOneRFActive : LevelState :=
  { current_level_labels := ["Hello", "Thank You", "Yes", "No"]
    current_level_id := some "lesson_1"
    is_practice_mode := true
    current_level_model := none
    current_level_rf_model := some rfConst
    current_level_metadata := some mdLessonOne }

/-- A filesystem in which lesson_2's artifact directory holds only a TF
bundle: no `asl_model.pkl`, no `training_metadata.json`. -/
def fsLessonTwoTFOnly : LessonFS := fun lid =>
  if lid = "lesson_2" then some { metadata := none, tf := some (some tfConst1), rf := none }
  else none

/-- A collector in a regular session "s1" with all buckets still empty. -/
def emptyRegularCollector : Collector :=
  { current_session := some "s1"
    training_features := ORIGINAL_LABELS.map (fun g => (g, []))
    training_labels := ORIGINAL_LABELS.map (fun g => (g, []))
    admin_level_sessions := []
    current_lesson_gestures := ORIGINAL_LABELS
    current_lesson_id := none }

/-- A loaded default TF model that always scores class 0 ("Yes") highest. -/
def nmYes : NeuralModel := fun _ => some [1, 0, 0, 0, 0]

/-- A default-dispatcher state with `nmYes` loaded. -/
def loadedYesModel : ASLModel := { model := some nmYes, model_loaded := true }

/-- All external training stages succeed with held-out accuracy 1. -/
def envOK : TrainEnv := { rf_accuracy := some 1, tf_accuracy := some 1, persist_ok := true }

/-- The collector as `EnhancedTrainingCollector.__init__` builds it: no
session, no buffers. -/
def freshCollector : Collector :=
  { current_session := none
    training_features := []
    training_labels := []
    admin_level_sessions := []
    current_lesson_gestures := []
    current_lesson_id := none }

/-- A regular session in which only the "Hello" bucket has samples:
15 valid detections, class index 3 (= "Hello"'s position in
`ORIGINAL_LABELS`). -/
def helloOnlyCollector : Collector :=
  { current_session := some "s1"
    training_features :=
      [("Yes", []), ("No", []), ("I Love You", []),
       ("Hello", List.replicate 15 zeroFeatures), ("Thank You", [])]
    training_labels :=
      [("Yes", []), ("No", []), ("I Love You", []),
       ("Hello", List.replicate 15 3), ("Thank You", [])]
    admin_level_sessions := []
    current_lesson_gestures := ORIGINAL_LABELS
    current_lesson_id := none }

/-- A regular session in which "Hello" already holds two samples. -/
def helloTwoCollector : Collector :=
  { current_session := some "s1"
    training_features :=
      [("Yes", []), ("No", []), ("I Love You", []),
       ("Hello", [zeroFeatures, zeroFeatures]), ("Thank You", [])]
    training_labels :=
      [("Yes", []), ("No", []), ("I Love You", []), ("Hello", [3, 3]), ("Thank You", [])]
    admin_level_sessions := []
    current_lesson_gestures := ORIGINAL_LABELS
    current_lesson_id := none }

/-- An ensemble classifier that always answers ("Yes", 0.9). -/
def ensYes : EnsembleModel := fun _ => ("Yes", 9/10)

/-! ## Helper lemmas -/

/-- Association lists built as one empty bucket per vocabulary entry have
exactly the vocabulary as key set, with every bucket empty. -/
theorem alookup_map_nil {β : Type} (l : List String) (g : String) :
    alookup (l.map fun x => (x, ([] : List β))) g = if g ∈ l then some [] else none := by
  induction l with
  | nil => simp [alookup]
  | cons x xs ih =>
      simp only [List.map_cons, alookup]
      by_cases h : x = g
      · subst h; simp
      · have h2 : ¬ g = x := fun hgx => h hgx.symm
        simp [h, h2, ih]

/-! ## Claim C1 — training-failure isolation of the default model -/

/-- Claim C1, counterexample: the claim says a failed training run leaves
the previously-installed default model loaded and used by subsequent
default-mode predictions. On the code, `complete_training` with an empty
dataset returns ok=false and then *clears* the in-memory default model, so
the next default-mode prediction uses the rule-based fallback
("Thank You", 0.6) instead of the loaded model's answer ("Yes", 1.0). -/
theorem complete_training_failure_clears_model :
    (run_training emptyRegularCollector false none envOK).2.1 = false
    ∧ ASLModel.predict loadedYesModel zeroFeatures = ("Yes", 1)
    ∧ ASLModel.predict
        (complete_training emptyRegularCollector loadedYesModel envOK loadedYesModel).2.1
        zeroFeatures = ("Thank You", 3/5) := by
  refine ⟨rfl, ?_, ?_⟩
  · norm_num [ASLModel.predict, loadedYesModel, nmYes, listMax, listArgmax, argmaxAux,
      ORIGINAL_LABELS]
  · norm_num [complete_training, run_training, emptyRegularCollector, envOK,
      ASLModel.predict, rule_based_prediction, zeroFeatures, ORIGINAL_LABELS, alookup]

/-- Claim C1, amended: whenever the regular training run fails,
`complete_training` replaces the in-memory default model with the cleared
state (`model = None`, `model_loaded = False`) — discarding whatever model
was loaded before — and every subsequent default-mode prediction therefore
uses the rule-based heuristic. -/
theorem complete_training_failure_behavior :
    ∀ (tc : Collector) (am : ASLModel) (env : TrainEnv) (reloaded : ASLModel),
      (run_training tc false none env).2.1 = false →
      (complete_training tc am env reloaded).2.1 = { model := none, model_loaded := false }
      ∧ ∀ f : FeatureVec,
          ASLModel.predict (complete_training tc am env reloaded).2.1 f
            = rule_based_prediction f := by
  intro tc am env reloaded hfail
  simp only [complete_training, hfail, Bool.false_eq_true, if_false]
  exact ⟨by trivial, fun f => rfl⟩

/-- Claim C1, witness for the amended theorem at a concrete failed run. -/
theorem complete_training_failure_behavior_witness :
    (run_training emptyRegularCollector false none envOK).2.1 = false
    ∧ (complete_training emptyRegularCollector loadedYesModel envOK loadedYesModel).2.1
        = { model := none, model_loaded := false }
    ∧ ASLModel.predict
        (complete_training emptyRegularCollector loadedYesModel envOK loadedYesModel).2.1
        zeroFeatures = rule_based_prediction zeroFeatures :=
  ⟨rfl,
    (complete_training_failure_behavior emptyRegularCollector loadedYesModel envOK
      loadedYesModel rfl).1,
    (complete_training_failure_behavior emptyRegularCollector loadedYesModel envOK
      loadedYesModel rfl).2 zeroFeatures⟩

/-! ## Claim C2 — failed lesson entry and manager state -/

/-- Claim C2, counterexample: the claim says a failed `enterLesson` leaves
the manager state unchanged, including the lesson id. On the code,
`enter_practice_mode` assigns `current_level_id` (and the vocabulary)
*before* attempting the load, so entering the unknown "lesson_9" from the
Active lesson_1 state fails yet overwrites the held lesson id. -/
theorem enter_practice_mode_failure_mutates_state :
    (enter_practice_mode emptyFS lessonOneActive "lesson_9").2 = false
    ∧ (enter_practice_mode emptyFS lessonOneActive "lesson_9").1.current_level_id
        = some "lesson_9"
    ∧ lessonOneActive.current_level_id = some "lesson_1" := by
  refine ⟨rfl, rfl, rfl⟩

/-- Claim C2, amended: when the artifact directory for the requested lesson
is missing, `enter_practice_mode` fails and leaves the restricted-mode
flag, the loaded classifiers and the metadata unchanged, but the lesson id
and vocabulary are overwritten with the requested lesson's values (an
unknown lesson id yields the empty vocabulary). -/
theorem enter_practice_mode_missing_artifact :
    ∀ (fs : LessonFS) (s : LevelState) (lesson_id : String),
      fs lesson_id = none →
      enter_practice_mode fs s lesson_id =
        ({ s with
            current_level_id := some lesson_id,
            current_level_labels := (alookup PRACTICE_LEVEL_GESTURES lesson_id).getD [] },
          false) := by
  intro fs s lid h
  simp [enter_practice_mode, load_level_model, h]

/-- Claim C2, witness for the amended theorem at a concrete missing
artifact. -/
theorem enter_practice_mode_missing_artifact_witness :
    emptyFS "lesson_9" = none
    ∧ enter_practice_mode emptyFS inactive_state "lesson_9" =
        ({ inactive_state with
            current_level_id := some "lesson_9",
            current_level_labels := (alookup PRACTICE_LEVEL_GESTURES "lesson_9").getD [] },
          false) :=
  ⟨rfl, enter_practice_mode_missing_artifact emptyFS inactive_state "lesson_9" rfl⟩

/-! ## Claim C3 — successful lesson entry replaces the context wholesale -/

/-- Claim C3, counterexample: the claim says a successful `enterLesson`
builds the whole context from the new lesson's artifact, with nothing from
the previously-entered lesson remaining. On the code, entering lesson_2
(whose artifact holds only a TF bundle) from the lesson_1 state succeeds
but keeps holding lesson_1's Random Forest classifier and lesson_1's
metadata, because `_load_level_model` only overwrites fields whose files
exist in the new artifact. -/
theorem enter_practice_mode_retains_prior_components :
    (enter_practice_mode fsLessonTwoTFOnly lessonOneRFActive "lesson_2").2 = true
    ∧ (enter_practice_mode fsLessonTwoTFOnly lessonOneRFActive "lesson_2").1.current_level_rf_model
        = some rfConst
    ∧ (enter_practice_mode fsLessonTwoTFOnly lessonOneRFActive "lesson_2").1.current_level_metadata
        = some mdLessonOne :=
  ⟨rfl, rfl, rfl⟩

/-- Claim C3, amended: after a successful `enter_practice_mode(lessonId)`
the lesson id, vocabulary and restricted-mode flag reflect lessonId, and
each of the metadata / TF-model / RF-model components is taken from
lessonId's artifact when the corresponding file exists there — but any
component whose file is absent from the new artifact retains the value
loaded for the previously-entered lesson instead of being cleared. -/
theorem enter_practice_mode_success_characterization :
    ∀ (fs : LessonFS) (s : LevelState) (lesson_id : String) (art : LessonArtifact),
      fs lesson_id = some art →
      (enter_practice_mode fs s lesson_id).2 = true →
      (enter_practice_mode fs s lesson_id).1 =
        { current_level_labels := (alookup PRACTICE_LEVEL_GESTURES lesson_id).getD []
          current_level_id := some lesson_id
          is_practice_mode := true
          current_level_model :=
            match art.tf with
            | some r => r
            | none => s.current_level_model
          current_level_rf_model :=
            match art.rf with
            | some r => r
            | none => s.current_level_rf_model
          current_level_metadata :=
            match art.metadata with
            | some (some md) => some md
            | _ => s.current_level_metadata } := by
  intro fs s lid art hfs hsucc
  unfold enter_practice_mode load_level_model at hsucc ⊢
  rw [hfs] at hsucc ⊢
  rcases hmd : art.metadata with _ | (_ | md) <;>
    rcases htf : art.tf with _ | tfres <;>
    rcases hrf : art.rf with _ | rfres <;>
    simp only [hmd, htf, hrf] at hsucc ⊢ <;>
    (try split_ifs at hsucc ⊢) <;>
    simp_all

/-- Claim C3, witness for the amended theorem at the concrete TF-only
lesson_2 artifact entered from the lesson_1 state. -/
theorem enter_practice_mode_success_characterization_witness :
    fsLessonTwoTFOnly "lesson_2" = some { metadata := none, tf := some (some tfConst1), rf := none }
    ∧ (enter_practice_mode fsLessonTwoTFOnly lessonOneRFActive "lesson_2").2 = true
    ∧ (enter_practice_mode fsLessonTwoTFOnly lessonOneRFActive "lesson_2").1 =
        { current_level_labels := ["Happy", "Sad", "Angry", "Love"]
          current_level_id := some "lesson_2"
          is_practice_mode := true
          current_level_model := some tfConst1
          current_level_rf_model := some rfConst
          current_level_metadata := some mdLessonOne } :=
  ⟨rfl, rfl,
    enter_practice_mode_success_characterization fsLessonTwoTFOnly lessonOneRFActive
      "lesson_2" { metadata := none, tf := some (some tfConst1), rf := none } rfl rfl⟩

/-! ## Claim C4 — out-of-range class index in lesson-mode prediction -/

/-- Claim C4: while lesson mode is active, if the class index produced by
the active model is out of range for the resolved gesture-label list, the
lesson-mode predict returns the low-confidence ("No model", 0.0) result;
the label list is never indexed out of bounds (the embedding's guarded
lookup mirrors the source's `predicted_class < len(gesture_labels)`
check). -/
theorem predict_with_level_model_oob_is_no_model :
    ∀ (s : LevelState) (f : FeatureVec) (i : Nat),
      s.is_practice_mode = true →
      activeClassIdx s f = some i →
      (resolveLabels s).length ≤ i →
      predict_with_level_model s f = ("No model", 0) := by
  intro s f i hp hidx hlen
  unfold predict_with_level_model
  unfold activeClassIdx at hidx
  rw [hp]
  simp only [Bool.true_eq_false, if_false]
  cases hm : s.current_level_model with
  | some nm =>
      cases hnf : nm f with
      | none => simp [hm, hnf] at hidx
      | some preds =>
          by_cases hlen0 : preds.length = 0
          · simp [hm, hnf, hlen0] at hidx
          · simp only [hm, hnf] at hidx ⊢
            rw [if_neg hlen0] at hidx
            simp only [Option.some.injEq] at hidx
            rw [if_neg hlen0]
            rw [if_neg (by omega : ¬ listArgmax preds < (resolveLabels s).length)]
  | none =>
      cases hrm : s.current_level_rf_model with
      | none => simp [hm, hrm] at hidx
      | some rm =>
          cases hrf : rm f with
          | none => simp [hm, hrm, hrf] at hidx
          | some clsproba =>
              obtain ⟨cls, proba⟩ := clsproba
              by_cases hlen0 : proba.length = 0
              · simp [hm, hrm, hrf, hlen0] at hidx
              · simp only [hm, hrm, hrf] at hidx ⊢
                rw [if_neg hlen0] at hidx
                simp only [Option.some.injEq] at hidx
                rw [if_neg hlen0]
                rw [if_neg (by omega : ¬ cls < (resolveLabels s).length)]

/-- Claim C4, witness: a practice state whose TF model yields class 0 while
the resolved label list is empty. -/
theorem predict_with_level_model_oob_is_no_model_witness :
    oobWitnessState.is_practice_mode = true
    ∧ activeClassIdx oobWitnessState zeroFeatures = some 0
    ∧ (resolveLabels oobWitnessState).length ≤ 0
    ∧ predict_with_level_model oobWitnessState zeroFeatures = ("No model", 0) :=
  ⟨rfl, rfl, le_refl 0,
    predict_with_level_model_oob_is_no_model oobWitnessState zeroFeatures 0 rfl rfl
      (le_refl 0)⟩

/-! ## Claim C5 — sample submission rejection -/

/-- Claim C5, counterexample: the claim says a gesture name outside the
session's resolved vocabulary always yields 0 with buffers unchanged. On
the code the membership test runs on the *stripped* name: `" Hello "` is
not in the vocabulary, yet the call (with a valid detection) appends the
sample to the "Hello" bucket and returns 1. -/
theorem process_training_frame_accepts_unstripped_name :
    " Hello " ∉ valid_gestures emptyRegularCollector
    ∧ (process_training_frame emptyRegularCollector " Hello "
        (.detected zeroFeatures)).2 = 1
    ∧ alookup (process_training_frame emptyRegularCollector " Hello "
        (.detected zeroFeatures)).1.training_features "Hello" = some [zeroFeatures] := by
  refine ⟨by decide, ?_, ?_⟩ <;> rfl

/-- Claim C5, amended: `process_training_frame` returns 0 and changes
nothing when no session is current, and returns 0 and changes nothing when
the gesture name — after stripping surrounding whitespace — is not in the
session's resolved vocabulary (the session's gesture list, or the default
list when that list is empty). -/
theorem process_training_frame_rejects_unknown_gesture :
    ∀ (c : Collector) (gesture_name : String) (fr : FrameResult),
      (c.current_session = none → process_training_frame c gesture_name fr = (c, 0))
      ∧ (pyStrip gesture_name ∉ valid_gestures c →
           process_training_frame c gesture_name fr = (c, 0)) := by
  intro c gname fr
  constructor
  · intro h
    unfold process_training_frame
    rw [h]
  · intro h
    unfold process_training_frame
    cases hs : c.current_session with
    | none => rfl
    | some sid => simp only [h, not_false_eq_true, if_pos]

/-- Claim C5, witness for the amended theorem: a session-less collector,
and an unknown gesture in a live regular session. -/
theorem process_training_frame_rejects_unknown_gesture_witness :
    freshCollector.current_session = none
    ∧ process_training_frame freshCollector "Hello" .noDetection = (freshCollector, 0)
    ∧ pyStrip "Bogus" ∉ valid_gestures emptyRegularCollector
    ∧ process_training_frame emptyRegularCollector "Bogus"
        (.detected zeroFeatures) = (emptyRegularCollector, 0) :=
  ⟨rfl,
    (process_training_frame_rejects_unknown_gesture freshCollector "Hello" .noDetection).1 rfl,
    by decide,
    (process_training_frame_rejects_unknown_gesture emptyRegularCollector "Bogus"
      (.detected zeroFeatures)).2 (by decide)⟩

/-! ## Claim C6 — session replacement is a fresh start -/

/-- Claim C6: starting a session (any new session B over any prior state,
including a session A with partial samples) makes the sample-buffer
dictionaries contain exactly one bucket per gesture of B's resolved
vocabulary, every bucket empty — so no sample of the previous session
remains visible and every bucket of B starts at count 0. -/
theorem start_training_session_fresh_buckets :
    ∀ (c : Collector) (session_id : String) (is_admin_level : Bool)
      (lesson_id : Option String) (now : ℚ) (g : String),
      alookup (start_training_session c session_id is_admin_level lesson_id now).training_features g
          = (if g ∈ sessionVocab is_admin_level lesson_id then some [] else none)
      ∧ alookup (start_training_session c session_id is_admin_level lesson_id now).training_labels g
          = (if g ∈ sessionVocab is_admin_level lesson_id then some [] else none) := by
  intro c sid adm lid now g
  exact ⟨alookup_map_nil _ g, alookup_map_nil _ g⟩

/-! ## Claim C7 — single-gesture training completion -/

/-- Claim C7, counterexample: the claim says completing a regular session
with samples for exactly one gesture returns ok=false. On the code, a
regular session holding 15 "Hello" samples and nothing else yields a
nonempty dataset, `run_training` performs no class-diversity check, and
(with the external stages succeeding, as they do on single-class data)
returns success with the best accuracy. -/
theorem run_training_single_gesture_returns_success :
    (run_training helloOnlyCollector false none envOK).2 = (true, 1) := by
  decide

/-- Claim C7, amended: a regular `run_training` returns ok=false only when
the flattened dataset is empty or an external fit/evaluate/persist stage
raises; any session with at least one populated gesture bucket (in
particular one with samples for exactly one gesture) trains to
`(True, max(rf_accuracy, tf_accuracy))` when the external stages succeed —
there is no insufficient-class-diversity failure. -/
theorem run_training_nonempty_no_diversity_check :
    ∀ (c : Collector) (env : TrainEnv) (rfAcc tfAcc : ℚ),
      env.rf_accuracy = some rfAcc →
      env.tf_accuracy = some tfAcc →
      env.persist_ok = true →
      (ORIGINAL_LABELS.flatMap
        (fun g => (alookup c.training_features g).getD [])).length ≠ 0 →
      (run_training c false none env).2 = (true, max rfAcc tfAcc) := by
  intro c env rfAcc tfAcc hrf htf hp hx
  unfold run_training
  simp only [hrf, htf, hp]
  rw [if_neg hx]
  simp

/-- Claim C7, witness for the amended theorem at the 15-sample "Hello"-only
session. -/
theorem run_training_nonempty_no_diversity_check_witness :
    envOK.rf_accuracy = some 1 ∧ envOK.tf_accuracy = some 1 ∧ envOK.persist_ok = true
    ∧ (ORIGINAL_LABELS.flatMap
        (fun g => (alookup helloOnlyCollector.training_features g).getD [])).length ≠ 0
    ∧ (run_training helloOnlyCollector false none envOK).2 = (true, max 1 1) :=
  ⟨rfl, rfl, rfl, by decide,
    run_training_nonempty_no_diversity_check helloOnlyCollector envOK 1 1 rfl rfl rfl
      (by decide)⟩

/-! ## Claim C8 — default dispatch tiers -/

/-- Claim C8, counterexample: the claim says the default predict prefers
the neural classifier, else uses the ensemble classifier, else the
rule-based heuristic. The source's `ASLModel` holds no ensemble classifier
(its state is only `model`/`model_loaded`, and `load_model` reads only the
TF bundle); at the concrete point "no neural model loaded, ensemble
present", the spec-side three-tier dispatch answers with the ensemble
("Yes", 0.9) while the code answers with the rule-based heuristic
("Thank You", 0.6). -/
theorem default_predict_lacks_ensemble_tier :
    spec_default_predict none (some ensYes) zeroFeatures = ("Yes", 9/10)
    ∧ ASLModel.predict { model := none, model_loaded := false } zeroFeatures
        = ("Thank You", 3/5)
    ∧ spec_default_predict none (some ensYes) zeroFeatures
        ≠ ASLModel.predict { model := none, model_loaded := false } zeroFeatures := by
  refine ⟨rfl, ?_, ?_⟩
  · norm_num [ASLModel.predict, rule_based_prediction, zeroFeatures]
  · intro h
    rw [show spec_default_predict none (some ensYes) zeroFeatures = ("Yes", 9/10) from rfl] at h
    have h2 : ASLModel.predict { model := none, model_loaded := false } zeroFeatures
        = ("Thank You", 3/5) := by
      norm_num [ASLModel.predict, rule_based_prediction, zeroFeatures]
    rw [h2] at h
    simp at h

/-- Claim C8, amended: the default predict has exactly two tiers — every
prediction is either the loaded neural classifier's resolved
(label, confidence) or the rule-based heuristic's result; an ensemble
classifier is never consulted, and a (label, confidence) pair is always
returned (in particular when no trained model is loaded). -/
theorem ASLModel_predict_two_tiers :
    ∀ (m : ASLModel) (f : FeatureVec),
      ASLModel.predict m f = rule_based_prediction f
      ∨ ∃ (nm : NeuralModel) (preds : List ℚ),
          m.model = some nm ∧ m.model_loaded = true ∧ nm f = some preds
          ∧ preds.length ≠ 0
          ∧ ASLModel.predict m f =
              ((if listArgmax preds < ORIGINAL_LABELS.length then
                  ORIGINAL_LABELS.getD (listArgmax preds) "Unknown"
                else "Unknown"), listMax preds) := by
  intro m f
  unfold ASLModel.predict
  cases hml : m.model_loaded with
  | false => left; rfl
  | true =>
      cases hm : m.model with
      | none => left; rfl
      | some nm =>
          cases hnf : nm f with
          | none => left; simp [hnf]
          | some preds =>
              by_cases hlen : preds.length = 0
              · left; simp [hnf, hlen]
              · right
                refine ⟨nm, preds, rfl, rfl, hnf, hlen, ?_⟩
                simp [hnf, hlen]

/-! ## Claim C9 — idempotent lesson exit -/

/-- Claim C9: `exit_practice_mode` is idempotent — two consecutive calls
from any manager state yield exactly the state one call yields — and a call
made in the Inactive state (all context fields cleared, restricted-mode
flag false) changes nothing. -/
theorem exit_practice_mode_idempotent :
    (∀ s : LevelState, exit_practice_mode (exit_practice_mode s) = exit_practice_mode s)
    ∧ exit_practice_mode inactive_state = inactive_state :=
  ⟨fun _ => rfl, rfl⟩

/-! ## Claim C10 — total sample submission with count-on-error -/

/-- Claim C10: `process_training_frame` is total at its interface (the
embedding returns a `Nat` on every path, each Python exception being
caught and converted on the corresponding path), and on any internal
failure — a base64/decode raise, an undecodable image, or an extractor
miss — it returns the stripped gesture's current accumulated sample count
with no state change, exactly what a successful no-detection frame
returns. -/
theorem process_training_frame_error_count :
    ∀ (c : Collector) (gesture_name : String) (fr : FrameResult) (sid : String),
      c.current_session = some sid →
      pyStrip gesture_name ∈ valid_gestures c →
      (fr = .decodeError ∨ fr = .noImage ∨ fr = .noDetection) →
      process_training_frame c gesture_name fr =
        (c, ((alookup c.training_features (pyStrip gesture_name)).getD []).length) := by
  intro c gname fr sid hs hmem hfr
  unfold process_training_frame
  rw [hs]
  simp only [hmem, not_true_eq_false, if_false]
  rcases hfr with h | h | h <;> subst h <;> rfl

/-- Claim C10, witness: with two "Hello" samples already accumulated, an
errored frame and a no-detection frame both return the nonzero count 2 and
are indistinguishable. -/
theorem process_training_frame_error_count_witness :
    helloTwoCollector.current_session = some "s1"
    ∧ pyStrip "Hello" ∈ valid_gestures helloTwoCollector
    ∧ process_training_frame helloTwoCollector "Hello" .decodeError
        = (helloTwoCollector, 2)
    ∧ process_training_frame helloTwoCollector "Hello" .noDetection
        = (helloTwoCollector, 2) :=
  ⟨rfl, by decide,
    process_training_frame_error_count helloTwoCollector "Hello" .decodeError "s1" rfl
      (by decide) (Or.inl rfl),
    process_training_frame_error_count helloTwoCollector "Hello" .noDetection "s1" rfl
      (by decide) (Or.inr (Or.inr rfl))⟩
